import Mathlib

/-!
Shallow embedding of the persistence and validation core of the
nyu-devops sample-accounts service: the `Account` and `Address` models
(`src/service/models/account.py`, `src/service/models/address.py`) and the
shared `PersistentBase` CRUD methods (`src/service/models.py`).

Python dictionaries, lists and scalar JSON values are embedded as `PyVal`;
the Python exceptions relevant to the deserialization code
(`KeyError`, `TypeError`, `AttributeError`, `ValueError`, and the domain
exception `DataValidationError`) are embedded as `PyError`.
Fallible Python code is embedded as `Except PyError _`.
-/

/-- Embedding of the Python/JSON values that flow through serialize and
deserialize: `None`, integers, strings, lists, and dictionaries
(dictionaries as association lists with unique keys). -/
inductive PyVal where
  | none : PyVal
  | int : Int → PyVal
  | str : String → PyVal
  | list : List PyVal → PyVal
  | dict : List (String × PyVal) → PyVal

/-- The Python exceptions that the model code can raise.
`dataValidationError` embeds the domain exception `DataValidationError`
declared in `src/service/models.py`; the others embed the builtin
exceptions that `deserialize` catches (or, for `valueError`, fails to
catch). -/
inductive PyError where
  | keyError : String → PyError
  | typeError : String → PyError
  | attributeError : String → PyError
  | valueError : String → PyError
  | dataValidationError : String → PyError

/-- Embedding of `data[key]` on a `PyVal`: a dictionary yields the bound
value or raises `KeyError(key)`; every non-dictionary value raises
`TypeError` (as Python does for `[]["name"]`, `"x"["name"]`, `5["name"]`
and `None["name"]`). -/
def subscript (v : PyVal) (key : String) : Except PyError PyVal :=
  match v with
  | PyVal.dict entries =>
    match entries.lookup key with
    | some x => Except.ok x
    | Option.none => Except.error (PyError.keyError key)
  | PyVal.list _ => Except.error (PyError.typeError "list indices must be integers or slices, not str")
  | PyVal.str _ => Except.error (PyError.typeError "string indices must be integers, not str")
  | PyVal.int _ => Except.error (PyError.typeError "int object is not subscriptable")
  | PyVal.none => Except.error (PyError.typeError "NoneType object is not subscriptable")

/-- Embedding of `data.get(key)`: on a dictionary returns the bound value
or `None` when the key is absent; on any other value raises
`AttributeError` (no `get` attribute). -/
def pyGet (v : PyVal) (key : String) : Except PyError PyVal :=
  match v with
  | PyVal.dict entries =>
    match entries.lookup key with
    | some x => Except.ok x
    | Option.none => Except.ok PyVal.none
  | PyVal.list _ => Except.error (PyError.attributeError "get")
  | PyVal.str _ => Except.error (PyError.attributeError "get")
  | PyVal.int _ => Except.error (PyError.attributeError "get")
  | PyVal.none => Except.error (PyError.attributeError "get")

/-- Embedding of Python iteration `for x in v`: lists yield their
elements, strings yield their one-character substrings, dictionaries
yield their keys; `None` and integers raise `TypeError` (not iterable). -/
def pyIter (v : PyVal) : Except PyError (List PyVal) :=
  match v with
  | PyVal.list xs => Except.ok xs
  | PyVal.str s => Except.ok (s.toList.map (fun c => PyVal.str (String.mk [c])))
  | PyVal.dict entries => Except.ok (entries.map (fun e => PyVal.str e.1))
  | PyVal.none => Except.error (PyError.typeError "NoneType object is not iterable")
  | PyVal.int _ => Except.error (PyError.typeError "int object is not iterable")

/-! ### Dates

`date_joined` is a `datetime.date`; `Account.serialize` calls
`self.date_joined.isoformat()` and `Account.deserialize` calls
`date.fromisoformat(data["date_joined"])`.  We embed a date as a
year/month/day record, `isoformat` as the `YYYY-MM-DD` rendering, and
`fromisoformat` as the parser of that canonical rendering that raises
`ValueError` on any malformed string (as Python does) and `TypeError`
when the argument is not a string. -/

structure Date where
  year : Nat
  month : Nat
  day : Nat
deriving DecidableEq

/-- Whether a year is a leap year (Gregorian rule, as in `datetime`). -/
def Date.isLeap (y : Nat) : Bool :=
  (y % 4 == 0 && y % 100 != 0) || (y % 400 == 0)

/-- Number of days in a month, as validated by `datetime.date`. -/
def Date.daysInMonth (y m : Nat) : Nat :=
  if m = 2 then (if Date.isLeap y then 29 else 28)
  else if m = 4 ∨ m = 6 ∨ m = 9 ∨ m = 11 then 30
  else 31

/-- A well-formed `datetime.date` value: the ranges `datetime` enforces. -/
def Date.wf (d : Date) : Prop :=
  1 ≤ d.year ∧ d.year ≤ 9999 ∧ 1 ≤ d.month ∧ d.month ≤ 12 ∧
  1 ≤ d.day ∧ d.day ≤ Date.daysInMonth d.year d.month

instance (d : Date) : Decidable d.wf := by
  unfold Date.wf
  infer_instance

/-- The decimal digit character for `n % 10`-style digits. -/
def digitChar (n : Nat) : Char := Char.ofNat (48 + n)

/-- Parse a decimal digit character. -/
def digitVal (c : Char) : Option Nat :=
  if 48 ≤ c.toNat ∧ c.toNat ≤ 57 then some (c.toNat - 48) else Option.none

/-- `date.isoformat()`: the `YYYY-MM-DD` rendering (`%04d-%02d-%02d`). -/
def Date.isoformat (d : Date) : String :=
  String.mk [
    digitChar (d.year / 1000 % 10), digitChar (d.year / 100 % 10),
    digitChar (d.year / 10 % 10), digitChar (d.year % 10), '-',
    digitChar (d.month / 10 % 10), digitChar (d.month % 10), '-',
    digitChar (d.day / 10 % 10), digitChar (d.day % 10)]

/-- Parse two digit characters as a two-digit number. -/
def digits2 (c1 c2 : Char) : Option Nat :=
  match digitVal c1, digitVal c2 with
  | some a, some b => some (a * 10 + b)
  | _, _ => Option.none

/-- Parse four digit characters as a four-digit number. -/
def digits4 (c1 c2 c3 c4 : Char) : Option Nat :=
  match digitVal c1, digitVal c2, digitVal c3, digitVal c4 with
  | some a, some b, some c, some d => some (a * 1000 + b * 100 + c * 10 + d)
  | _, _, _, _ => Option.none

/-- `date.fromisoformat` on a string: parses the canonical `YYYY-MM-DD`
form and validates the `datetime` ranges; any malformed string raises
`ValueError`. -/
def Date.fromisoformat (s : String) : Except PyError Date :=
  match s.toList with
  | [y1, y2, y3, y4, s1, m1, m2, s2, d1, d2] =>
    if s1 = '-' ∧ s2 = '-' then
      match digits4 y1 y2 y3 y4, digits2 m1 m2, digits2 d1 d2 with
      | some y, some mo, some da =>
        if 1 ≤ y ∧ 1 ≤ mo ∧ mo ≤ 12 ∧ 1 ≤ da ∧ da ≤ Date.daysInMonth y mo then
          Except.ok ⟨y, mo, da⟩
        else Except.error (PyError.valueError "day is out of range for month")
      | _, _, _ => Except.error (PyError.valueError "Invalid isoformat string")
    else Except.error (PyError.valueError "Invalid isoformat string")
  | _ => Except.error (PyError.valueError "Invalid isoformat string")

/-- `date.fromisoformat(v)` on an arbitrary value: a non-string argument
raises `TypeError`, a string argument is parsed (possibly raising
`ValueError`). -/
def pyFromisoformat (v : PyVal) : Except PyError Date :=
  match v with
  | PyVal.str s => Date.fromisoformat s
  | _ => Except.error (PyError.typeError "fromisoformat: argument must be str")

/-! ### The Address entity (`src/service/models/address.py`)

An in-memory `Address` object.  `id` is the surrogate primary key
(`None` before creation); Python performs no type checking when
`deserialize` assigns the remaining fields, so they hold arbitrary
`PyVal`s.  A fresh `Address()` has every field `None`. -/

structure Address where
  id : Option Int := Option.none
  account_id : PyVal := PyVal.none
  name : PyVal := PyVal.none
  street : PyVal := PyVal.none
  city : PyVal := PyVal.none
  state : PyVal := PyVal.none
  postal_code : PyVal := PyVal.none

/-- `None` or an integer id, as a `PyVal` (for serialization). -/
def pyOfOptInt (i : Option Int) : PyVal :=
  match i with
  | Option.none => PyVal.none
  | some n => PyVal.int n

/-- `Address.serialize`: the dictionary
`{id, account_id, name, street, city, state, postal_code}`. -/
def Address.serialize (self : Address) : PyVal :=
  PyVal.dict [
    ("id", pyOfOptInt self.id),
    ("account_id", self.account_id),
    ("name", self.name),
    ("street", self.street),
    ("city", self.city),
    ("state", self.state),
    ("postal_code", self.postal_code)]

/-- The `except` clauses of `Address.deserialize`: `AttributeError`,
`KeyError` and `TypeError` are re-raised as `DataValidationError` with
the messages from the source; every other exception (in particular
`ValueError`) propagates unchanged. -/
def Address.translateError (e : PyError) : PyError :=
  match e with
  | PyError.attributeError a =>
      PyError.dataValidationError ("Invalid attribute: " ++ a)
  | PyError.keyError k =>
      PyError.dataValidationError ("Invalid Address: missing " ++ k)
  | PyError.typeError m =>
      PyError.dataValidationError
        ("Invalid Address: body of request contained bad or no data " ++ m)
  | e => e

/-- The `try` body of `Address.deserialize`: reads the six required keys
in source order and assigns them; the first failing access aborts. -/
def Address.deserializeBody (self : Address) (data : PyVal) : Except PyError Address :=
  match subscript data "account_id" with
  | Except.error e => Except.error e
  | Except.ok account_id =>
  match subscript data "name" with
  | Except.error e => Except.error e
  | Except.ok name =>
  match subscript data "street" with
  | Except.error e => Except.error e
  | Except.ok street =>
  match subscript data "city" with
  | Except.error e => Except.error e
  | Except.ok city =>
  match subscript data "state" with
  | Except.error e => Except.error e
  | Except.ok state =>
  match subscript data "postal_code" with
  | Except.error e => Except.error e
  | Except.ok postal_code =>
    Except.ok { self with
      account_id := account_id, name := name, street := street,
      city := city, state := state, postal_code := postal_code }

/-- `Address.deserialize`: the `try` body with its `except` clauses.
Note that the primary key `id` is never read from the dictionary. -/
def Address.deserialize (self : Address) (data : PyVal) : Except PyError Address :=
  match Address.deserializeBody self data with
  | Except.ok a => Except.ok a
  | Except.error e => Except.error (Address.translateError e)

/-! ### The Account entity (`src/service/models/account.py`) -/

/-- An in-memory `Account` object.  `date_joined` is a `datetime.date`
once assigned (`None` on a fresh object); `phone_number` is optional. -/
structure Account where
  id : Option Int := Option.none
  name : PyVal := PyVal.none
  userid : PyVal := PyVal.none
  email : PyVal := PyVal.none
  phone_number : PyVal := PyVal.none
  date_joined : Option Date := Option.none
  addresses : List Address := []

/-- `Account.serialize`: the dictionary
`{id, name, userid, email, phone_number, date_joined, addresses}` with
`date_joined` rendered by `isoformat()` and the addresses serialized in
collection order.  Calling it on an object whose `date_joined` was never
assigned raises `AttributeError` (`None.isoformat()`). -/
def Account.serialize (self : Account) : Except PyError PyVal :=
  match self.date_joined with
  | Option.none => Except.error (PyError.attributeError "isoformat")
  | some d => Except.ok (PyVal.dict [
      ("id", pyOfOptInt self.id),
      ("name", self.name),
      ("userid", self.userid),
      ("email", self.email),
      ("phone_number", self.phone_number),
      ("date_joined", PyVal.str (Date.isoformat d)),
      ("addresses", PyVal.list (self.addresses.map Address.serialize))])

/-- The `except` clauses of `Account.deserialize` (same shape as the
Address ones, with the `Invalid Account` messages). -/
def Account.translateError (e : PyError) : PyError :=
  match e with
  | PyError.attributeError a =>
      PyError.dataValidationError ("Invalid attribute: " ++ a)
  | PyError.keyError k =>
      PyError.dataValidationError ("Invalid Account: missing " ++ k)
  | PyError.typeError m =>
      PyError.dataValidationError
        ("Invalid Account: body of request contained bad or no data " ++ m)
  | e => e

/-- The `for json_address in address_list` loop of `Account.deserialize`:
each element is deserialized into a fresh `Address()`; the first failure
(already a `DataValidationError` raised by `Address.deserialize`)
aborts the loop. -/
def deserializeAddressItems (items : List PyVal) : Except PyError (List Address) :=
  match items with
  | [] => Except.ok []
  | j :: rest =>
    match Address.deserialize {} j with
    | Except.error e => Except.error e
    | Except.ok a =>
      match deserializeAddressItems rest with
      | Except.error e => Except.error e
      | Except.ok rest2 => Except.ok (a :: rest2)

/-- The `try` body of `Account.deserialize`, in source order:
`data["name"]`, `data["userid"]`, `data["email"]`,
`data.get("phone_number")`, `date.fromisoformat(data["date_joined"])`,
then `data.get("addresses")` iterated into fresh `Address` objects that
are appended to `self.addresses`. -/
def Account.deserializeBody (self : Account) (data : PyVal) : Except PyError Account :=
  match subscript data "name" with
  | Except.error e => Except.error e
  | Except.ok name =>
  match subscript data "userid" with
  | Except.error e => Except.error e
  | Except.ok userid =>
  match subscript data "email" with
  | Except.error e => Except.error e
  | Except.ok email =>
  match pyGet data "phone_number" with
  | Except.error e => Except.error e
  | Except.ok phone_number =>
  match subscript data "date_joined" with
  | Except.error e => Except.error e
  | Except.ok rawDate =>
  match pyFromisoformat rawDate with
  | Except.error e => Except.error e
  | Except.ok date_joined =>
  match pyGet data "addresses" with
  | Except.error e => Except.error e
  | Except.ok address_list =>
  match pyIter address_list with
  | Except.error e => Except.error e
  | Except.ok items =>
  match deserializeAddressItems items with
  | Except.error e => Except.error e
  | Except.ok newAddresses =>
    Except.ok { self with
      name := name, userid := userid, email := email,
      phone_number := phone_number, date_joined := some date_joined,
      addresses := self.addresses ++ newAddresses }

/-- `Account.deserialize`: the `try` body with its `except` clauses.
As for Address, the primary key `id` is never read from the dictionary. -/
def Account.deserialize (self : Account) (data : PyVal) : Except PyError Account :=
  match Account.deserializeBody self data with
  | Except.ok a => Except.ok a
  | Except.error e => Except.error (Account.translateError e)

/-! ### The persistence layer (`src/service/models.py`, `PersistentBase`)

The spec treats the database and its transaction manager as an opaque
persistence provider offering create/read/update/delete primitives
(spec section 1 and section 4.1).  We embed the committed database state
as two association tables keyed by integer primary key, with a counter
providing the auto-generated next key per table.  A commit is
all-or-nothing: each `create`/`update`/`delete` call takes a
`commitError` oracle describing the provider's behaviour during its
`db.session.commit()` (`Option.none` = success, `some msg` = the
provider raises an exception rendered as `msg`); on failure the method
performs `db.session.rollback()`, so the returned database is the input
database, and raises `DataValidationError(msg)` exactly as the
`except` clauses in `PersistentBase` do.

The `ondelete="CASCADE"` foreign key declared on `Address.account_id`
(with `passive_deletes=True` on `Account.addresses`) makes the provider
itself delete every address row referencing a deleted account row; this
cascade therefore lives in the provider model (`DB` operations), not in
the embedded application methods. -/

structure DB where
  accounts : List (Int × Account) := []
  addresses : List (Int × Address) := []
  nextAccountId : Int := 1
  nextAddressId : Int := 1

/-- Database well-formedness: primary keys are unique per table and the
auto-increment counters are strictly ahead of every existing key
(the provider never reuses a key). -/
def DB.WF (db : DB) : Prop :=
  (∀ r ∈ db.accounts, r.1 < db.nextAccountId) ∧
  (∀ r ∈ db.addresses, r.1 < db.nextAddressId) ∧
  (db.accounts.map Prod.fst).Nodup ∧
  (db.addresses.map Prod.fst).Nodup

/-- Python truthiness of an id field: `not self.id` is true when the id
is `None` (and also for the integer `0`, which is falsy in Python). -/
def pyIdTruthy (i : Option Int) : Bool :=
  match i with
  | Option.none => false
  | some n => decide (n ≠ 0)

/-- `Account.find(by_id)` (`PersistentBase.find`): primary-key lookup,
returning the entity or an absent marker; never an error. -/
def Account.find (db : DB) (by_id : Int) : Option Account :=
  db.accounts.lookup by_id

/-- `Address.find(by_id)` (`PersistentBase.find`). -/
def Address.find (db : DB) (by_id : Int) : Option Address :=
  db.addresses.lookup by_id

/-- `PersistentBase.create` for an Account: `self.id = None`, then
`db.session.add(self)` and `db.session.commit()`.  On success the
provider assigns the next key and the committed object (with its
assigned id) is returned and stored; on provider failure the session is
rolled back, the database is unchanged, and `DataValidationError`
wrapping the original error is raised.

Modelling scope: the provider model carries no session identity map, so
the success path here embeds `add`+`commit` of a Transient entity (the
spec's contract for `create()`: id unset, section 4.1) as a fresh-key
insert.  It does not capture the provider's flush behaviour when
`create()` is called on a live already-persistent instance (there the
real provider flushes an update of the old row with a null primary key
and raises, which then takes the failure path); conclusions drawn from
this definition are therefore restricted to the Transient success path
and the commit-failure path. -/
def Account.create (self : Account) (db : DB) (commitError : Option String) :
    Except PyError Account × DB :=
  let staged : Account := { self with id := Option.none }
  match commitError with
  | some msg => (Except.error (PyError.dataValidationError msg), db)
  | Option.none =>
    let newId := db.nextAccountId
    let stored : Account := { staged with id := some newId }
    (Except.ok stored,
     { db with accounts := db.accounts ++ [(newId, stored)],
               nextAccountId := newId + 1 })

/-- `PersistentBase.create` for an Address. -/
def Address.create (self : Address) (db : DB) (commitError : Option String) :
    Except PyError Address × DB :=
  let staged : Address := { self with id := Option.none }
  match commitError with
  | some msg => (Except.error (PyError.dataValidationError msg), db)
  | Option.none =>
    let newId := db.nextAddressId
    let stored : Address := { staged with id := some newId }
    (Except.ok stored,
     { db with addresses := db.addresses ++ [(newId, stored)],
               nextAddressId := newId + 1 })

/-- `PersistentBase.update` for an Account: `if not self.id:` raise
`DataValidationError("Update called with empty ID field")` before any
provider interaction; otherwise `db.session.commit()` flushes the
in-memory state to the row with the entity's id (provider failure rolls
back and raises `DataValidationError`). -/
def Account.update (self : Account) (db : DB) (commitError : Option String) :
    Except PyError Account × DB :=
  if pyIdTruthy self.id = false then
    (Except.error (PyError.dataValidationError "Update called with empty ID field"), db)
  else
    match commitError with
    | some msg => (Except.error (PyError.dataValidationError msg), db)
    | Option.none =>
      (Except.ok self,
       { db with accounts := db.accounts.map (fun r => if some r.1 = self.id then (r.1, self) else r) })

/-- `PersistentBase.update` for an Address. -/
def Address.update (self : Address) (db : DB) (commitError : Option String) :
    Except PyError Address × DB :=
  if pyIdTruthy self.id = false then
    (Except.error (PyError.dataValidationError "Update called with empty ID field"), db)
  else
    match commitError with
    | some msg => (Except.error (PyError.dataValidationError msg), db)
    | Option.none =>
      (Except.ok self,
       { db with addresses := db.addresses.map (fun r => if some r.1 = self.id then (r.1, self) else r) })

/-- Whether an address row survives the provider-level
`ON DELETE CASCADE` when the account with key `i` is deleted: every row
whose `account_id` references `i` is removed by the provider. -/
def addressRowSurvives (i : Int) (r : Int × Address) : Bool :=
  match r.2.account_id with
  | PyVal.int k => decide (k ≠ i)
  | _ => true

/-- `PersistentBase.delete` for an Account:
`db.session.delete(self)` then `db.session.commit()`.  Deleting an
entity that was never persisted raises inside the `try` and is wrapped
as `DataValidationError`; on provider failure the session rolls back and
`DataValidationError` is raised; on success the provider removes the
account row and, by the `ondelete="CASCADE"` foreign key, every address
row referencing it. -/
def Account.delete (self : Account) (db : DB) (commitError : Option String) :
    Except PyError Unit × DB :=
  match self.id with
  | Option.none =>
    (Except.error (PyError.dataValidationError "Instance is not persisted"), db)
  | some i =>
    match commitError with
    | some msg => (Except.error (PyError.dataValidationError msg), db)
    | Option.none =>
      (Except.ok (),
       { db with accounts := db.accounts.filter (fun r => decide (r.1 ≠ i)),
                 addresses := db.addresses.filter (addressRowSurvives i) })

/-- `PersistentBase.delete` for an Address (no cascade originates here). -/
def Address.delete (self : Address) (db : DB) (commitError : Option String) :
    Except PyError Unit × DB :=
  match self.id with
  | Option.none =>
    (Except.error (PyError.dataValidationError "Instance is not persisted"), db)
  | some i =>
    match commitError with
    | some msg => (Except.error (PyError.dataValidationError msg), db)
    | Option.none =>
      (Except.ok (),
       { db with addresses := db.addresses.filter (fun r => decide (r.1 ≠ i)) })

/-! ### Helper lemmas about association-table lookup -/

theorem lookup_append_of_some {α : Type} {l m : List (Int × α)} {k : Int} {v : α}
    (h : List.lookup k l = some v) : List.lookup k (l ++ m) = some v := by
  induction l with
  | nil => simp [List.lookup] at h
  | cons r rest ih =>
    obtain ⟨a, b⟩ := r
    simp only [List.cons_append, List.lookup] at h ⊢
    cases hab : (k == a) with
    | true => simp only [hab] at h ⊢; exact h
    | false => simp only [hab] at h ⊢; exact ih h

theorem lookup_append_fresh {α : Type} {l : List (Int × α)} {k : Int} {x : α}
    (h : ∀ r ∈ l, r.1 ≠ k) : List.lookup k (l ++ [(k, x)]) = some x := by
  induction l with
  | nil => simp [List.lookup]
  | cons r rest ih =>
    obtain ⟨a, b⟩ := r
    have ha : a ≠ k := h (a, b) (List.mem_cons_self _ _)
    have hka : (k == a) = false := beq_false_of_ne (fun hkk => ha (hkk.symm))
    simp only [List.cons_append, List.lookup, hka]
    exact ih (fun r hr => h r (List.mem_cons_of_mem _ hr))

theorem lookup_filter_none {α : Type} {l : List (Int × α)} {k : Int}
    {p : Int × α → Bool} (h : ∀ v, (k, v) ∈ l → p (k, v) = false) :
    List.lookup k (l.filter p) = Option.none := by
  induction l with
  | nil => simp [List.lookup]
  | cons r rest ih =>
    obtain ⟨a, b⟩ := r
    have hrec := ih (fun v hv => h v (List.mem_cons_of_mem _ hv))
    cases hp : p (a, b) with
    | false => simp only [List.filter, hp]; exact hrec
    | true =>
      have hak : (k == a) = false := by
        apply beq_false_of_ne
        intro hkk
        subst hkk
        have := h b (List.mem_cons_self _ _)
        rw [hp] at this
        exact Bool.noConfusion this
      simp only [List.filter, hp, List.lookup, hak]
      exact hrec

theorem mem_keys_of_lookup_value {α : Type} {l : List (Int × α)} {k : Int} {v : α}
    (h : (k, v) ∈ l) : k ∈ l.map Prod.fst := by
  exact List.mem_map.mpr ⟨(k, v), h, rfl⟩

theorem nodup_keys_unique_value {α : Type} {l : List (Int × α)} {k : Int} {v w : α}
    (hnd : (l.map Prod.fst).Nodup) (h1 : (k, v) ∈ l) (h2 : (k, w) ∈ l) : v = w := by
  induction l with
  | nil => simp at h1
  | cons r rest ih =>
    obtain ⟨a, b⟩ := r
    simp only [List.map_cons, List.nodup_cons] at hnd
    rcases List.mem_cons.mp h1 with h1h | h1t
    · rcases List.mem_cons.mp h2 with h2h | h2t
      · cases h1h; cases h2h; rfl
      · cases h1h
        exact absurd (mem_keys_of_lookup_value h2t) hnd.1
    · rcases List.mem_cons.mp h2 with h2h | h2t
      · cases h2h
        exact absurd (mem_keys_of_lookup_value h1t) hnd.1
      · exact ih hnd.2 h1t h2t

/-! ### Helper lemmas about the date rendering -/

theorem digitVal_digitChar : ∀ n < 10, digitVal (digitChar n) = some n := by decide

theorem daysInMonth_le_31 (y m : Nat) : Date.daysInMonth y m ≤ 31 := by
  unfold Date.daysInMonth
  split
  · split <;> omega
  · split <;> omega

theorem fromisoformat_isoformat (d : Date) (h : d.wf) :
    Date.fromisoformat (Date.isoformat d) = Except.ok d := by
  obtain ⟨h1, h2, h3, h4, h5, h6⟩ := h
  have e1 := digitVal_digitChar _ (Nat.mod_lt (d.year / 1000) (by norm_num))
  have e2 := digitVal_digitChar _ (Nat.mod_lt (d.year / 100) (by norm_num))
  have e3 := digitVal_digitChar _ (Nat.mod_lt (d.year / 10) (by norm_num))
  have e4 := digitVal_digitChar _ (Nat.mod_lt d.year (by norm_num))
  have e5 := digitVal_digitChar _ (Nat.mod_lt (d.month / 10) (by norm_num))
  have e6 := digitVal_digitChar _ (Nat.mod_lt d.month (by norm_num))
  have e7 := digitVal_digitChar _ (Nat.mod_lt (d.day / 10) (by norm_num))
  have e8 := digitVal_digitChar _ (Nat.mod_lt d.day (by norm_num))
  have w1 : d.year / 1000 % 10 = d.year / 1000 := Nat.mod_eq_of_lt (by omega)
  have hy : d.year / 1000 % 10 * 1000 + d.year / 100 % 10 * 100 +
      d.year / 10 % 10 * 10 + d.year % 10 = d.year := by rw [w1]; omega
  have hm : d.month / 10 % 10 * 10 + d.month % 10 = d.month := by omega
  have hdim : d.day ≤ 31 := h6.trans (daysInMonth_le_31 d.year d.month)
  have hd : d.day / 10 % 10 * 10 + d.day % 10 = d.day := by omega
  have hcond : 1 ≤ d.year ∧ 1 ≤ d.month ∧ d.month ≤ 12 ∧ 1 ≤ d.day ∧
      d.day ≤ Date.daysInMonth d.year d.month := ⟨h1, h3, h4, h5, h6⟩
  simp only [Date.isoformat, Date.fromisoformat, String.toList, digits4, digits2,
    e1, e2, e3, e4, e5, e6, e7, e8]
  rw [hy, hm, hd]
  simp [hcond]

/-! ### Round-trip helper lemmas -/

/-- The entity produced by deserializing a serialized `Address` into a
fresh `Address()`: every field of the original except the primary key
`id`, which `deserialize` never reads. -/
def Address.clearId (ad : Address) : Address := { ad with id := Option.none }

theorem addr_roundtrip (ad : Address) :
    Address.deserialize {} (Address.serialize ad) = Except.ok (Address.clearId ad) := rfl

theorem deserializeAddressItems_map (l : List Address) :
    deserializeAddressItems (l.map Address.serialize) = Except.ok (l.map Address.clearId) := by
  induction l with
  | nil => rfl
  | cons a rest ih =>
    simp only [List.map_cons, deserializeAddressItems, addr_roundtrip, ih]

theorem subscript_acct_name (v1 v2 v3 v4 v5 v6 v7 : PyVal) :
    subscript (PyVal.dict [("id", v1), ("name", v2), ("userid", v3), ("email", v4),
      ("phone_number", v5), ("date_joined", v6), ("addresses", v7)]) "name" =
      Except.ok v2 := rfl

theorem subscript_acct_userid (v1 v2 v3 v4 v5 v6 v7 : PyVal) :
    subscript (PyVal.dict [("id", v1), ("name", v2), ("userid", v3), ("email", v4),
      ("phone_number", v5), ("date_joined", v6), ("addresses", v7)]) "userid" =
      Except.ok v3 := rfl

theorem subscript_acct_email (v1 v2 v3 v4 v5 v6 v7 : PyVal) :
    subscript (PyVal.dict [("id", v1), ("name", v2), ("userid", v3), ("email", v4),
      ("phone_number", v5), ("date_joined", v6), ("addresses", v7)]) "email" =
      Except.ok v4 := rfl

theorem pyGet_acct_phone (v1 v2 v3 v4 v5 v6 v7 : PyVal) :
    pyGet (PyVal.dict [("id", v1), ("name", v2), ("userid", v3), ("email", v4),
      ("phone_number", v5), ("date_joined", v6), ("addresses", v7)]) "phone_number" =
      Except.ok v5 := rfl

theorem subscript_acct_date (v1 v2 v3 v4 v5 v6 v7 : PyVal) :
    subscript (PyVal.dict [("id", v1), ("name", v2), ("userid", v3), ("email", v4),
      ("phone_number", v5), ("date_joined", v6), ("addresses", v7)]) "date_joined" =
      Except.ok v6 := rfl

theorem pyGet_acct_addresses (v1 v2 v3 v4 v5 v6 v7 : PyVal) :
    pyGet (PyVal.dict [("id", v1), ("name", v2), ("userid", v3), ("email", v4),
      ("phone_number", v5), ("date_joined", v6), ("addresses", v7)]) "addresses" =
      Except.ok v7 := rfl

/-- Deserializing the serialized form of an account whose `date_joined`
is a well-formed date reproduces every field except the primary keys:
the resulting account (and each of its addresses) has `id = None`. -/
theorem account_roundtrip (a : Account) (d : Date)
    (hdj : a.date_joined = some d) (hwf : d.wf) :
    ∃ p, Account.serialize a = Except.ok p ∧
      Account.deserialize {} p = Except.ok
        { id := Option.none, name := a.name, userid := a.userid, email := a.email,
          phone_number := a.phone_number, date_joined := some d,
          addresses := a.addresses.map Address.clearId } := by
  have hser : Account.serialize a = Except.ok (PyVal.dict [
      ("id", pyOfOptInt a.id),
      ("name", a.name),
      ("userid", a.userid),
      ("email", a.email),
      ("phone_number", a.phone_number),
      ("date_joined", PyVal.str (Date.isoformat d)),
      ("addresses", PyVal.list (a.addresses.map Address.serialize))]) := by
    unfold Account.serialize
    rw [hdj]
  refine ⟨_, hser, ?_⟩
  have hdate : pyFromisoformat (PyVal.str (Date.isoformat d)) = Except.ok d := by
    simp only [pyFromisoformat]
    exact fromisoformat_isoformat d hwf
  simp only [Account.deserialize, Account.deserializeBody,
    subscript_acct_name, subscript_acct_userid, subscript_acct_email,
    pyGet_acct_phone, subscript_acct_date, pyGet_acct_addresses,
    hdate, pyIter, deserializeAddressItems_map, List.nil_append]

/-! ### Claim C1: serialize/deserialize round-trip -/

/-- A concrete persisted account (id assigned) used to probe the
round-trip behaviour of the claim. -/
def roundTripProbe : Account :=
  { id := some 1, name := PyVal.str "alice", userid := PyVal.str "a1",
    email := PyVal.str "alice at example dot com", phone_number := PyVal.none,
    date_joined := some ⟨2020, 1, 15⟩, addresses := [] }

/-- C1 (counterexample): deserializing the dictionary produced by
serializing a persisted account (id = 1) yields an entity whose `id` is
`None`, not the original id — `deserialize` never reads the `id` key, so
the round trip is not identity on `id`. -/
theorem C1_counterexample_id_not_preserved :
    ∃ p b, Account.serialize roundTripProbe = Except.ok p ∧
      Account.deserialize {} p = Except.ok b ∧
      b.id ≠ roundTripProbe.id :=
  ⟨_, _, rfl, rfl, by decide⟩

/-- C1 (amended): for every valid Account `a` (any field values, a
well-formed `date_joined`, zero or more Addresses), deserializing the
dictionary produced by `a.serialize()` into a fresh Account yields an
entity whose `name`, `userid`, `email`, `phone_number` and `date_joined`
are identical to those of `a` and whose Addresses are those of `a`, in
the same order, with identical fields except their primary keys: the
resulting account id and every resulting address id are `None` (the
original ids are not restored). -/
theorem C1_roundtrip (a : Account) (d : Date)
    (hdj : a.date_joined = some d) (hwf : d.wf) :
    ∃ p b, Account.serialize a = Except.ok p ∧
      Account.deserialize {} p = Except.ok b ∧
      b.name = a.name ∧ b.userid = a.userid ∧ b.email = a.email ∧
      b.phone_number = a.phone_number ∧ b.date_joined = a.date_joined ∧
      b.addresses = a.addresses.map Address.clearId ∧ b.id = Option.none := by
  obtain ⟨p, hp, hb⟩ := account_roundtrip a d hdj hwf
  exact ⟨p, _, hp, hb, rfl, rfl, rfl, rfl, hdj.symm, rfl, rfl⟩

/-- A concrete account with one address, exercising `C1_roundtrip`. -/
def roundTripWitnessAccount : Account :=
  { id := some 3, name := PyVal.str "bob", userid := PyVal.str "b2",
    email := PyVal.str "bob at example dot com",
    phone_number := PyVal.str "555-1212", date_joined := some ⟨2021, 6, 30⟩,
    addresses := [{ id := some 9, account_id := PyVal.int 3, name := PyVal.str "home", street := PyVal.str "100 Main St", city := PyVal.str "Anytown", state := PyVal.str "NY", postal_code := PyVal.str "10001" }] }

theorem C1_roundtrip_witness :
    ∃ p b, Account.serialize roundTripWitnessAccount = Except.ok p ∧
      Account.deserialize {} p = Except.ok b ∧
      b.name = roundTripWitnessAccount.name ∧
      b.userid = roundTripWitnessAccount.userid ∧
      b.email = roundTripWitnessAccount.email ∧
      b.phone_number = roundTripWitnessAccount.phone_number ∧
      b.date_joined = roundTripWitnessAccount.date_joined ∧
      b.addresses = roundTripWitnessAccount.addresses.map Address.clearId ∧
      b.id = Option.none :=
  C1_roundtrip roundTripWitnessAccount ⟨2021, 6, 30⟩ rfl (by decide)

/-! ### Claim C5: missing required keys -/

/-- C5: for every input dictionary missing a required key — `name`,
`userid` or `email` for Account; `account_id`, `name`, `street`, `city`,
`state` or `postal_code` for Address — `deserialize` raises
`DataValidationError` whose message names the missing key (the first
missing key in the source's read order); in particular deserializing the
empty dictionary into a fresh Account or Address raises
`DataValidationError` naming the first required key. -/
theorem C5_missing_required_key (entries : List (String × PyVal)) :
    (entries.lookup "name" = Option.none →
      Account.deserialize {} (PyVal.dict entries) =
        Except.error (PyError.dataValidationError ("Invalid Account: missing " ++ "name"))) ∧
    ((entries.lookup "name").isSome → entries.lookup "userid" = Option.none →
      Account.deserialize {} (PyVal.dict entries) =
        Except.error (PyError.dataValidationError ("Invalid Account: missing " ++ "userid"))) ∧
    ((entries.lookup "name").isSome → (entries.lookup "userid").isSome →
      entries.lookup "email" = Option.none →
      Account.deserialize {} (PyVal.dict entries) =
        Except.error (PyError.dataValidationError ("Invalid Account: missing " ++ "email"))) ∧
    (entries.lookup "account_id" = Option.none →
      Address.deserialize {} (PyVal.dict entries) =
        Except.error (PyError.dataValidationError ("Invalid Address: missing " ++ "account_id"))) ∧
    ((entries.lookup "account_id").isSome → entries.lookup "name" = Option.none →
      Address.deserialize {} (PyVal.dict entries) =
        Except.error (PyError.dataValidationError ("Invalid Address: missing " ++ "name"))) ∧
    ((entries.lookup "account_id").isSome → (entries.lookup "name").isSome →
      entries.lookup "street" = Option.none →
      Address.deserialize {} (PyVal.dict entries) =
        Except.error (PyError.dataValidationError ("Invalid Address: missing " ++ "street"))) ∧
    ((entries.lookup "account_id").isSome → (entries.lookup "name").isSome →
      (entries.lookup "street").isSome → entries.lookup "city" = Option.none →
      Address.deserialize {} (PyVal.dict entries) =
        Except.error (PyError.dataValidationError ("Invalid Address: missing " ++ "city"))) ∧
    ((entries.lookup "account_id").isSome → (entries.lookup "name").isSome →
      (entries.lookup "street").isSome → (entries.lookup "city").isSome →
      entries.lookup "state" = Option.none →
      Address.deserialize {} (PyVal.dict entries) =
        Except.error (PyError.dataValidationError ("Invalid Address: missing " ++ "state"))) ∧
    ((entries.lookup "account_id").isSome → (entries.lookup "name").isSome →
      (entries.lookup "street").isSome → (entries.lookup "city").isSome →
      (entries.lookup "state").isSome → entries.lookup "postal_code" = Option.none →
      Address.deserialize {} (PyVal.dict entries) =
        Except.error (PyError.dataValidationError ("Invalid Address: missing " ++ "postal_code"))) ∧
    (Account.deserialize {} (PyVal.dict []) =
      Except.error (PyError.dataValidationError ("Invalid Account: missing " ++ "name"))) ∧
    (Address.deserialize {} (PyVal.dict []) =
      Except.error (PyError.dataValidationError ("Invalid Address: missing " ++ "account_id"))) := by
  refine ⟨?_, ?_, ?_, ?_, ?_, ?_, ?_, ?_, ?_, rfl, rfl⟩
  · intro h
    simp only [Account.deserialize, Account.deserializeBody, subscript, h,
      Account.translateError]
  · intro h1 h2
    rw [Option.isSome_iff_exists] at h1
    obtain ⟨v1, hv1⟩ := h1
    simp only [Account.deserialize, Account.deserializeBody, subscript, hv1, h2,
      Account.translateError]
  · intro h1 h2 h3
    rw [Option.isSome_iff_exists] at h1 h2
    obtain ⟨v1, hv1⟩ := h1
    obtain ⟨v2, hv2⟩ := h2
    simp only [Account.deserialize, Account.deserializeBody, subscript, hv1, hv2, h3,
      Account.translateError]
  · intro h
    simp only [Address.deserialize, Address.deserializeBody, subscript, h,
      Address.translateError]
  · intro h1 h2
    rw [Option.isSome_iff_exists] at h1
    obtain ⟨v1, hv1⟩ := h1
    simp only [Address.deserialize, Address.deserializeBody, subscript, hv1, h2,
      Address.translateError]
  · intro h1 h2 h3
    rw [Option.isSome_iff_exists] at h1 h2
    obtain ⟨v1, hv1⟩ := h1
    obtain ⟨v2, hv2⟩ := h2
    simp only [Address.deserialize, Address.deserializeBody, subscript, hv1, hv2, h3,
      Address.translateError]
  · intro h1 h2 h3 h4
    rw [Option.isSome_iff_exists] at h1 h2 h3
    obtain ⟨v1, hv1⟩ := h1
    obtain ⟨v2, hv2⟩ := h2
    obtain ⟨v3, hv3⟩ := h3
    simp only [Address.deserialize, Address.deserializeBody, subscript, hv1, hv2, hv3,
      h4, Address.translateError]
  · intro h1 h2 h3 h4 h5
    rw [Option.isSome_iff_exists] at h1 h2 h3 h4
    obtain ⟨v1, hv1⟩ := h1
    obtain ⟨v2, hv2⟩ := h2
    obtain ⟨v3, hv3⟩ := h3
    obtain ⟨v4, hv4⟩ := h4
    simp only [Address.deserialize, Address.deserializeBody, subscript, hv1, hv2, hv3,
      hv4, h5, Address.translateError]
  · intro h1 h2 h3 h4 h5 h6
    rw [Option.isSome_iff_exists] at h1 h2 h3 h4 h5
    obtain ⟨v1, hv1⟩ := h1
    obtain ⟨v2, hv2⟩ := h2
    obtain ⟨v3, hv3⟩ := h3
    obtain ⟨v4, hv4⟩ := h4
    obtain ⟨v5, hv5⟩ := h5
    simp only [Address.deserialize, Address.deserializeBody, subscript, hv1, hv2, hv3,
      hv4, hv5, h6, Address.translateError]

theorem C5_missing_required_key_witness :
    Account.deserialize {} (PyVal.dict [("name", PyVal.str "alice"), ("userid", PyVal.str "a1")]) =
      Except.error (PyError.dataValidationError ("Invalid Account: missing " ++ "email")) :=
  (C5_missing_required_key [("name", PyVal.str "alice"), ("userid", PyVal.str "a1")]).2.2.1
    (by decide) (by decide) rfl

/-! ### Claim C6: malformed `date_joined` -/

/-- C6 (counterexample): an input dictionary whose `date_joined` value is
the (present, ten-character, non-ISO) string `"not-a-date"` makes
`Account.deserialize` raise `ValueError` — the `except` clauses catch
only `AttributeError`, `KeyError` and `TypeError`, so the
`date.fromisoformat` failure escapes untranslated and no
`DataValidationError` is raised. -/
theorem C6_counterexample_valueerror_escapes :
    ∃ e, Account.deserialize {} (PyVal.dict [
        ("name", PyVal.str "alice"), ("userid", PyVal.str "a1"),
        ("email", PyVal.str "alice at example dot com"),
        ("date_joined", PyVal.str "not-a-date"),
        ("addresses", PyVal.list [])]) = Except.error e ∧
      ∀ msg, e ≠ PyError.dataValidationError msg :=
  ⟨PyError.valueError "Invalid isoformat string", rfl,
    fun _ h => PyError.noConfusion h⟩

/-- C6 (amended): a present `date_joined` value that is a malformed
ISO-8601 date string makes `Account.deserialize` raise the underlying
`ValueError` unchanged (it is not one of the caught exception types, so
no `DataValidationError` is produced); only an absent key or a
non-string value (a `TypeError`) is translated to
`DataValidationError`. -/
theorem C6_malformed_date_valueerror (entries : List (String × PyVal)) (s msg : String)
    (h1 : (entries.lookup "name").isSome) (h2 : (entries.lookup "userid").isSome)
    (h3 : (entries.lookup "email").isSome)
    (h4 : entries.lookup "date_joined" = some (PyVal.str s))
    (h5 : Date.fromisoformat s = Except.error (PyError.valueError msg)) :
    Account.deserialize {} (PyVal.dict entries) =
      Except.error (PyError.valueError msg) := by
  rw [Option.isSome_iff_exists] at h1 h2 h3
  obtain ⟨v1, hv1⟩ := h1
  obtain ⟨v2, hv2⟩ := h2
  obtain ⟨v3, hv3⟩ := h3
  rcases hph : entries.lookup "phone_number" with _ | w <;>
    simp only [Account.deserialize, Account.deserializeBody, subscript, pyGet, hv1, hv2,
      hv3, hph, h4, pyFromisoformat, h5, Account.translateError]

theorem C6_malformed_date_valueerror_witness :
    Account.deserialize {} (PyVal.dict [
        ("name", PyVal.str "bob"), ("userid", PyVal.str "b2"),
        ("email", PyVal.str "bob at example dot com"),
        ("date_joined", PyVal.str "2021-13-40")]) =
      Except.error (PyError.valueError "day is out of range for month") :=
  C6_malformed_date_valueerror
    [("name", PyVal.str "bob"), ("userid", PyVal.str "b2"),
     ("email", PyVal.str "bob at example dot com"),
     ("date_joined", PyVal.str "2021-13-40")]
    "2021-13-40" "day is out of range for month"
    (by decide) (by decide) (by decide) rfl rfl

/-! ### Claim C8: non-dictionary input -/

/-- C8: for every input value that is not dictionary-shaped (a list, a
string, an integer, or `None`), `Account.deserialize` and
`Address.deserialize` fail with a `DataValidationError` describing the
type mismatch (the translated `TypeError` raised by the first
subscript access) and never return a populated entity. -/
theorem C8_non_dict_rejected (v : PyVal) (hnd : ∀ entries, v ≠ PyVal.dict entries) :
    ∃ m, Account.deserialize {} v =
        Except.error (PyError.dataValidationError
          ("Invalid Account: body of request contained bad or no data " ++ m)) ∧
      Address.deserialize {} v =
        Except.error (PyError.dataValidationError
          ("Invalid Address: body of request contained bad or no data " ++ m)) := by
  cases v with
  | dict entries => exact absurd rfl (hnd entries)
  | list xs => exact ⟨_, rfl, rfl⟩
  | str s => exact ⟨_, rfl, rfl⟩
  | int n => exact ⟨_, rfl, rfl⟩
  | none => exact ⟨_, rfl, rfl⟩

theorem C8_non_dict_rejected_witness :
    ∃ m, Account.deserialize {} (PyVal.list []) =
        Except.error (PyError.dataValidationError
          ("Invalid Account: body of request contained bad or no data " ++ m)) ∧
      Address.deserialize {} (PyVal.list []) =
        Except.error (PyError.dataValidationError
          ("Invalid Address: body of request contained bad or no data " ++ m)) :=
  C8_non_dict_rejected (PyVal.list []) (fun _ h => PyVal.noConfusion h)

/-! ### Claim C9: the `addresses` key is effectively required -/

/-- C9: an input dictionary lacking the `addresses` key entirely — even
with all other required keys present and valid — makes
`Account.deserialize` raise `DataValidationError`: `data.get("addresses")`
yields `None`, iterating `None` raises `TypeError` ("NoneType object is
not iterable"), and the `except TypeError` clause translates it. -/
theorem C9_missing_addresses_key (entries : List (String × PyVal)) (s : String) (d : Date)
    (h1 : (entries.lookup "name").isSome) (h2 : (entries.lookup "userid").isSome)
    (h3 : (entries.lookup "email").isSome)
    (h4 : entries.lookup "date_joined" = some (PyVal.str s))
    (h5 : Date.fromisoformat s = Except.ok d)
    (h6 : entries.lookup "addresses" = Option.none) :
    Account.deserialize {} (PyVal.dict entries) =
      Except.error (PyError.dataValidationError
        ("Invalid Account: body of request contained bad or no data " ++
          "NoneType object is not iterable")) := by
  rw [Option.isSome_iff_exists] at h1 h2 h3
  obtain ⟨v1, hv1⟩ := h1
  obtain ⟨v2, hv2⟩ := h2
  obtain ⟨v3, hv3⟩ := h3
  rcases hph : entries.lookup "phone_number" with _ | w <;>
    simp only [Account.deserialize, Account.deserializeBody, subscript, pyGet, hv1, hv2,
      hv3, hph, h4, pyFromisoformat, h5, h6, pyIter, Account.translateError]

theorem C9_missing_addresses_key_witness :
    Account.deserialize {} (PyVal.dict [
        ("name", PyVal.str "carol"), ("userid", PyVal.str "c3"),
        ("email", PyVal.str "carol at example dot com"),
        ("date_joined", PyVal.str "2020-01-15")]) =
      Except.error (PyError.dataValidationError
        ("Invalid Account: body of request contained bad or no data " ++
          "NoneType object is not iterable")) :=
  C9_missing_addresses_key
    [("name", PyVal.str "carol"), ("userid", PyVal.str "c3"),
     ("email", PyVal.str "carol at example dot com"),
     ("date_joined", PyVal.str "2020-01-15")]
    "2020-01-15" ⟨2020, 1, 15⟩ (by decide) (by decide) (by decide) rfl rfl rfl

theorem mem_of_lookup_eq_some {α : Type} {l : List (Int × α)} {k : Int} {v : α}
    (h : List.lookup k l = some v) : (k, v) ∈ l := by
  induction l with
  | nil => simp [List.lookup] at h
  | cons r rest ih =>
    obtain ⟨a, b⟩ := r
    simp only [List.lookup] at h
    cases hab : (k == a) with
    | true =>
      rw [hab] at h
      simp only [Option.some.injEq] at h
      subst h
      have : k = a := by
        have := (beq_iff_eq (a := k) (b := a)).mp hab
        exact this
      subst this
      exact List.mem_cons_self _ _
    | false =>
      rw [hab] at h
      exact List.mem_cons_of_mem _ (ih h)

/-! ### Claim C2: create assigns an id -/

/-- C2: for every Transient Account (`id = None`) and well-formed
database, a successful `create()` yields an account whose `id` is no
longer `None` (the provider-assigned fresh key) and whose other fields
are unchanged, and `find` on that id returns exactly that entity. -/
theorem C2_create_assigns_id (a : Account) (db : DB)
    (hwf : db.WF) (hid : a.id = Option.none) :
    ∃ created db2, Account.create a db Option.none = (Except.ok created, db2) ∧
      created.id ≠ Option.none ∧
      created = { a with id := some db.nextAccountId } ∧
      Account.find db2 db.nextAccountId = some created := by
  refine ⟨{ a with id := some db.nextAccountId }, _, rfl, by simp, rfl, ?_⟩
  exact lookup_append_fresh (fun r hr => Int.ne_of_lt (hwf.1 r hr))

theorem C2_create_assigns_id_witness :
    ∃ created db2,
      Account.create { name := PyVal.str "dave" } {} Option.none = (Except.ok created, db2) ∧
      created.id ≠ Option.none ∧
      created = { ({ name := PyVal.str "dave" } : Account) with id := some (1 : Int) } ∧
      Account.find db2 1 = some created :=
  C2_create_assigns_id { name := PyVal.str "dave" } {}
    ⟨by simp [DB.WF], by simp, by simp, by simp⟩ rfl

/-! ### Claim C3: provider failure rolls back and raises -/

/-- C3: for both entity types and each of `create()`, `update()` and
`delete()`, if the provider raises during commit (oracle `some msg`),
the method raises exactly one `DataValidationError` wrapping the
original failure and the returned database is the input database
unchanged (the rollback), so any subsequent `find()` sees no partial
write.  For `update`/`delete` the entity is persisted (truthy /
assigned id), so the guard clauses do not fire first. -/
theorem C3_provider_failure_rollback (msg : String) (a : Account) (ad : Address)
    (db : DB) (i j : Int) (ha : a.id = some i) (hi : i ≠ 0)
    (had : ad.id = some j) (hj : j ≠ 0) :
    Account.create a db (some msg) =
      (Except.error (PyError.dataValidationError msg), db) ∧
    Account.update a db (some msg) =
      (Except.error (PyError.dataValidationError msg), db) ∧
    Account.delete a db (some msg) =
      (Except.error (PyError.dataValidationError msg), db) ∧
    Address.create ad db (some msg) =
      (Except.error (PyError.dataValidationError msg), db) ∧
    Address.update ad db (some msg) =
      (Except.error (PyError.dataValidationError msg), db) ∧
    Address.delete ad db (some msg) =
      (Except.error (PyError.dataValidationError msg), db) := by
  refine ⟨rfl, ?_, ?_, rfl, ?_, ?_⟩
  · simp [Account.update, pyIdTruthy, ha, hi]
  · simp [Account.delete, ha]
  · simp [Address.update, pyIdTruthy, had, hj]
  · simp [Address.delete, had]

theorem C3_provider_failure_rollback_witness :
    Account.create { id := some 1 } {} (some "connection lost") =
      (Except.error (PyError.dataValidationError "connection lost"), {}) ∧
    Account.update { id := some 1 } {} (some "connection lost") =
      (Except.error (PyError.dataValidationError "connection lost"), {}) ∧
    Account.delete { id := some 1 } {} (some "connection lost") =
      (Except.error (PyError.dataValidationError "connection lost"), {}) ∧
    Address.create { id := some 2 } {} (some "connection lost") =
      (Except.error (PyError.dataValidationError "connection lost"), {}) ∧
    Address.update { id := some 2 } {} (some "connection lost") =
      (Except.error (PyError.dataValidationError "connection lost"), {}) ∧
    Address.delete { id := some 2 } {} (some "connection lost") =
      (Except.error (PyError.dataValidationError "connection lost"), {}) :=
  C3_provider_failure_rollback "connection lost" { id := some 1 } { id := some 2 }
    {} 1 2 rfl (by decide) rfl (by decide)

/-! ### Claim C7: update requires a persisted id -/

/-- C7: for both entity types, calling `update()` on an entity whose
`id` is unset (`None`) fails immediately with the
`DataValidationError` about an empty id and returns the database
unchanged, for every provider oracle — the commit step is never
consulted, so `update()` attempts a commit only when the id is set. -/
theorem C7_update_requires_id (a : Account) (ad : Address) (db : DB)
    (commitError : Option String) (ha : a.id = Option.none)
    (had : ad.id = Option.none) :
    Account.update a db commitError =
      (Except.error (PyError.dataValidationError "Update called with empty ID field"), db) ∧
    Address.update ad db commitError =
      (Except.error (PyError.dataValidationError "Update called with empty ID field"), db) := by
  constructor
  · simp [Account.update, pyIdTruthy, ha]
  · simp [Address.update, pyIdTruthy, had]

theorem C7_update_requires_id_witness :
    Account.update {} {} (some "provider failure") =
      (Except.error (PyError.dataValidationError "Update called with empty ID field"), {}) ∧
    Address.update {} {} (some "provider failure") =
      (Except.error (PyError.dataValidationError "Update called with empty ID field"), {}) :=
  C7_update_requires_id {} {} {} (some "provider failure") rfl rfl

/-! ### Claim C4: deleting an Account cascades to its Addresses -/

/-- C4: for every Persisted Account (id assigned) in a well-formed
database, a successful `delete()` removes the account row, and the
provider-level `ON DELETE CASCADE` on `address.account_id` removes every
address row referencing it: afterwards `find` on the account id and on
the id of each owned address returns absent.  In the embedding the
cascade is performed by the provider model (the database filter), not by
`Account.delete`, mirroring `ondelete="CASCADE"` /
`passive_deletes=True` in the source. -/
theorem C4_cascade_delete (acc : Account) (db : DB) (i : Int)
    (hwf : db.WF) (hid : acc.id = some i) :
    ∃ db2, Account.delete acc db Option.none = (Except.ok (), db2) ∧
      Account.find db2 i = Option.none ∧
      (∀ j ad, (j, ad) ∈ db.addresses → ad.account_id = PyVal.int i →
        Address.find db2 j = Option.none) := by
  have hdel : Account.delete acc db Option.none = (Except.ok (), { db with
      accounts := db.accounts.filter (fun r => decide (r.1 ≠ i)),
      addresses := db.addresses.filter (addressRowSurvives i) }) := by
    simp only [Account.delete, hid]
  refine ⟨_, hdel, ?_, ?_⟩
  · exact lookup_filter_none (fun v hv => by simp)
  · intro j ad hmem hacc
    apply lookup_filter_none
    intro v hv
    have hv_eq : v = ad := nodup_keys_unique_value hwf.2.2.2 hv hmem
    subst hv_eq
    simp [addressRowSurvives, hacc]

/-- A concrete database: one account (id 1) owning two addresses
(ids 1 and 2). -/
def cascadeProbeDB : DB :=
  { accounts := [(1, { id := some 1, name := PyVal.str "erin" })],
    addresses := [
      (1, { id := some 1, account_id := PyVal.int 1, name := PyVal.str "home" }),
      (2, { id := some 2, account_id := PyVal.int 1, name := PyVal.str "work" })],
    nextAccountId := 2, nextAddressId := 3 }

theorem C4_cascade_delete_witness :
    ∃ db2, Account.delete { id := some 1, name := PyVal.str "erin" } cascadeProbeDB
        Option.none = (Except.ok (), db2) ∧
      Account.find db2 1 = Option.none ∧
      (∀ j ad, (j, ad) ∈ cascadeProbeDB.addresses → ad.account_id = PyVal.int 1 →
        Address.find db2 j = Option.none) :=
  C4_cascade_delete { id := some 1, name := PyVal.str "erin" } cascadeProbeDB 1
    ⟨by simp [cascadeProbeDB], by simp [cascadeProbeDB],
     by simp [cascadeProbeDB], by simp [cascadeProbeDB]⟩ rfl
